import Mathlib

/-!
Shallow embedding of the Juju storage event handling core of
`charm-microceph` (`src/storage.py`, class `StorageHandler`), together with
proofs about it.

Modelling conventions:
* The per-unit stored state `_stored.osd_data` (a Python dict keyed by OSD
  number whose values are either a record dict or `None`) is an association
  list `Registry := List (Nat × Option OsdRecord)`; Python dict insertion
  order corresponds to list order.
* External processes (`microceph.remove_disk_cmd`, `microceph.list_disk_cmd`,
  `microceph.enroll_disks_as_osds`, `microceph._get_disk_info`, the Juju
  hook tools) are oracles supplied in `Backend` / `AttachEnv` structures;
  their observable invocations are recorded in a `calls` trace.
* A raised Python exception is an explicit value: `Except` for helper
  functions, the `Outcome` field for event handlers.
-/

namespace Microceph

/-- Equality on `Except` results is decidable when it is on both sides. -/
instance {ε : Type u} {α : Type v} [DecidableEq ε] [DecidableEq α] :
    DecidableEq (Except ε α) := fun
  | .ok a, .ok b =>
    if h : a = b then .isTrue (by rw [h])
    else .isFalse (by intro hh; cases hh; exact h rfl)
  | .ok _, .error _ => .isFalse (by intro h; cases h)
  | .error _, .ok _ => .isFalse (by intro h; cases h)
  | .error e, .error f =>
    if h : e = f then .isTrue (by rw [h])
    else .isFalse (by intro hh; cases hh; exact h rfl)

/-- Record stored per OSD in `_stored.osd_data` (see `_save_osd_data`):
`disk_by_id` is the backend device path, `disk` the Juju storage name of the
data device, `db` the optional storage name of a DB device. -/
structure OsdRecord where
  disk_by_id : String
  disk : String
  db : Option String
deriving DecidableEq

/-- `_stored.osd_data`: Python dict from OSD number to record-or-`None`
(`None` is the tombstone written by `_clean_stale_osd_data`). -/
abbrev Registry := List (Nat × Option OsdRecord)

/-- Outcome of one external backend command (`subprocess.run(..., check=True)`
wrapped by `StorageHandler._run`): normal return, or `CalledProcessError`
carrying its stderr text. -/
inductive CmdResult where
  | ok
  | fail (stderr : String)
deriving DecidableEq

/-- Observable external effects of the handlers, in invocation order. -/
inductive Call where
  | removeDisk (osd : Option Nat) (force : Bool)
  | listDisks
  | enrollDisks (paths : List String)
  | storageGet (id : String)
  | storageList
  | setStatus (s : String)
  | defer
deriving DecidableEq

/-- How a handler run ends: normal return, `event.defer()` then return,
`BlockedExceptionError` raised (caught by the sunbeam guard as a blocked
status), an uncaught `CalledProcessError`, or an uncaught `KeyError` from a
record field lookup. -/
inductive Outcome where
  | ok
  | deferred
  | blocked (msg : String)
  | raised (stderr : String)
  | keyError
deriving DecidableEq

/-- Result of one event handler run: final stored state, trace of external
calls, and how the run ended. -/
structure HandlerResult where
  osd_data : Registry
  calls : List Call
  outcome : Outcome
deriving DecidableEq

/-- The managed storage directive name (`StorageHandler.standalone`). -/
def standalone : String := "osd-standalone"

/-- `a.isPrefixOf b` on character lists, written out. -/
def starts_with : List Char → List Char → Bool
  | [], _ => true
  | _ :: _, [] => false
  | a :: as, b :: bs => a = b && starts_with as bs

/-- Substring search on character lists: some suffix of `hay` starts with
`needle`. -/
def has_sub (needle : List Char) : List Char → Bool
  | [] => starts_with needle []
  | c :: t => starts_with needle (c :: t) || has_sub needle t

/-- Python's `needle in hay` on strings. -/
def py_in (needle hay : String) : Bool :=
  has_sub needle.toList hay.toList

/-- Python's `name.split("/")[0]`: the part of `name` before the first `/`
(the whole of `name` when it has no `/`). -/
def take_until_slash : List Char → List Char
  | [] => []
  | c :: t => if c = '/' then [] else c :: take_until_slash t

/-- Directive of a storage name: `name.split("/")[0]`. -/
def directive_of (name : String) : String :=
  String.mk (take_until_slash name.toList)

/-- `_is_safety_failure`: the stderr text contains the Ceph safety-check
diagnostic. -/
def is_safety_failure (err : String) : Bool :=
  py_in "need at least 3 OSDs" err

/-- Python dict subscript `v[key]` on a stored record. Outer `none` is a
`KeyError` (unknown key); the inner value is the Python field value, where
the `db` field may itself be `None`. -/
def record_field (r : OsdRecord) (key : String) : Option (Option String) :=
  if key = "disk_by_id" then some (some r.disk_by_id)
  else if key = "disk" then some (some r.disk)
  else if key = "db" then some r.db
  else none

/-- Loop body of `_get_osd_id` (lines 191–195): scan the dict in order,
skip falsy (`None`) values, return the first key whose record's `key` field
equals `name`; `KeyError` if a scanned record lacks the field. -/
def get_osd_id_loop (key name : String) : Registry → Except Unit (Option Nat)
  | [] => .ok none
  | (k, v) :: rest =>
    match v with
    | none => get_osd_id_loop key name rest
    | some r =>
      match record_field r key with
      | none => .error ()
      | some value =>
        if value = some name then .ok (some k) else get_osd_id_loop key name rest

/-- `_get_osd_id(name)`: derive the directive from the storage name, map the
managed directive to the `disk` field, and scan `osd_data`. `.ok none` is the
Python `return None` ("not used as OSD"). -/
def get_osd_id (osd_data : Registry) (name : String) : Except Unit (Option Nat) :=
  let directive := directive_of name
  let key := if directive = standalone then "disk" else directive
  get_osd_id_loop key name osd_data

/-- Python dict assignment `d[k] = v` on the association list: replace the
value at an existing key, otherwise append the binding. -/
def dictSet (reg : Registry) (k : Nat) (v : Option OsdRecord) : Registry :=
  if reg.any (fun p => p.1 == k) then
    reg.map (fun p => if p.1 == k then (k, v) else p)
  else reg ++ [(k, v)]

/-- OSD numbers of the backend's configured-disk listing
(`[osd["osd"] for osd in microceph.list_disk_cmd()["ConfiguredDisks"]]`). -/
def configured_osds (disks : List (Nat × String)) : List Nat :=
  disks.map Prod.fst

/-- `_clean_stale_osd_data`: iterate over a snapshot of the registry's keys;
every key not in the backend listing gets its value overwritten with `None`
(the tombstone). The key itself is never removed. -/
def clean_stale_osd_data (osds : List Nat) (osd_data : Registry) : Registry :=
  (osd_data.map Prod.fst).foldl
    (fun reg osd_num => if osds.contains osd_num then reg else dictSet reg osd_num none)
    osd_data

/-- Oracle for the detach path's external world: the outcome of
`microceph.remove_disk_cmd(osd_num, force)` and the backend's configured-disk
listing (`microceph.list_disk_cmd()["ConfiguredDisks"]` as `(osd, path)`
pairs, assumed to succeed). -/
structure Backend where
  remove : Option Nat → Bool → CmdResult
  configuredDisks : List (Nat × String)

/-- Result of `StorageHandler.remove_osd`: new stored state, external call
trace, and the re-raised `CalledProcessError` stderr when the command
failed. -/
structure RemoveResult where
  osd_data : Registry
  calls : List Call
  error : Option String
deriving DecidableEq

/-- `remove_osd(osd_num, force)` (lines 147–157): run the removal command;
on success clean stale records; on `CalledProcessError` clean stale records
only when `force` was set, then re-raise. The cleanup's disk listing is the
`.listDisks` call in the trace. -/
def remove_osd (b : Backend) (osd_data : Registry) (osd_num : Option Nat)
    (force : Bool) : RemoveResult :=
  match b.remove osd_num force with
  | .ok =>
      { osd_data := clean_stale_osd_data (configured_osds b.configuredDisks) osd_data
        calls := [.removeDisk osd_num force, .listDisks]
        error := none }
  | .fail stderr =>
      if force then
        { osd_data := clean_stale_osd_data (configured_osds b.configuredDisks) osd_data
          calls := [.removeDisk osd_num force, .listDisks]
          error := some stderr }
      else
        { osd_data := osd_data
          calls := [.removeDisk osd_num force]
          error := some stderr }

/-- Python repr of the `osd_num` variable as interpolated into the warning
f-string (`None` when no OSD number was resolved). -/
def py_repr_opt_nat : Option Nat → String
  | none => "None"
  | some n => toString n

/-- The f-string built at line 107:
`f"Storage {full_id} detached, provide replacement for osd.{osd_num}."`. -/
def detach_warning (full_id : String) (osd_num : Option Nat) : String :=
  s!"Storage {full_id} detached, provide replacement for osd.{py_repr_opt_nat osd_num}."

/-- `_on_storage_detaching` (lines 93–112), exactly as written in the source:
resolve the handle with `_get_osd_id`; line 99 reads
`if osd_num is not None: return`, so the handler returns at once when an OSD
*is* associated, and otherwise calls `remove_osd(None)`. On a
`CalledProcessError` whose stderr matches the safety check, it forces the
removal and raises `BlockedExceptionError`; any other `CalledProcessError`
is caught and dropped by the bare `if` inside the `except` block. -/
def on_storage_detaching (b : Backend) (osd_data : Registry) (full_id : String) :
    HandlerResult :=
  match get_osd_id osd_data full_id with
  | .error _ => { osd_data := osd_data, calls := [], outcome := .keyError }
  | .ok osd_num =>
    if osd_num.isSome then
      { osd_data := osd_data, calls := [], outcome := .ok }
    else
      let r := remove_osd b osd_data osd_num false
      match r.error with
      | none => { osd_data := r.osd_data, calls := r.calls, outcome := .ok }
      | some stderr =>
        if is_safety_failure stderr then
          let r2 := remove_osd b r.osd_data osd_num true
          match r2.error with
          | none =>
              { osd_data := r2.osd_data
                calls := r.calls ++ r2.calls
                outcome := .blocked (detach_warning full_id osd_num) }
          | some e2 =>
              { osd_data := r2.osd_data
                calls := r.calls ++ r2.calls
                outcome := .raised e2 }
        else
          { osd_data := r.osd_data, calls := r.calls, outcome := .ok }

/-- Python truthiness test `not self._get_osd_id(...)` at line 85: `None` is
falsy, and so is the integer `0`. -/
def py_falsy_opt_nat : Option Nat → Bool
  | none => true
  | some n => n == 0

/-- `_fetch_filtered_storages(directives)` (lines 116–123): keep the listed
storage names whose directive (`device.split("/")[0]`) is in `directives`. -/
def fetch_filtered_storages (listed : List String) (directives : List String) :
    List String :=
  listed.filter (fun device => directives.contains (directive_of device))

/-- The enrollment loop of `_on_osd_standalone_attached` (lines 83–86):
collect the storages for which `not self._get_osd_id(name=storage)` holds;
a `KeyError` from `_get_osd_id` propagates. -/
def enroll_loop (osd_data : Registry) : List String → Except Unit (List String)
  | [] => .ok []
  | s :: rest =>
    match get_osd_id osd_data s with
    | .error e => .error e
    | .ok r =>
      match enroll_loop osd_data rest with
      | .error e => .error e
      | .ok tail => .ok (if py_falsy_opt_nat r then s :: tail else tail)

/-- The enrollment set the attach handler computes: the filtered attached
storages not already resolving to a truthy OSD number. -/
def enrollment_set (osd_data : Registry) (listed : List String) :
    Except Unit (List String) :=
  enroll_loop osd_data (fetch_filtered_storages listed [standalone])

/-- Oracle for the attach path's external world. `ready` is
`charm.ready_for_service()`; `storages` the result of `juju_storage_list()`;
`location` the (successful) result of
`juju_storage_get(storage_id, "location")`; `configuredDisks` as for
`Backend`; `disk_info` is `microceph._get_disk_info(path)["name"]`
(`none` when the OSD is not present on this node); `enroll` the outcome of
`microceph.enroll_disks_as_osds(paths)`. -/
structure AttachEnv where
  ready : Bool
  storages : List String
  location : String → String
  configuredDisks : List (Nat × String)
  disk_info : String → Option String
  enroll : List String → CmdResult

/-- `_save_osd_data(disk_name)` (lines 159–178): fetch the disk's location,
then for every configured OSD resolve its local device; skip OSDs not on
this node; when the local device name occurs in the disk path, store a fresh
record under the OSD number (`db_name` defaulted to `None`). -/
def save_osd_data (env : AttachEnv) (osd_data : Registry) (disk_name : String) :
    Registry :=
  let disk_path := env.location disk_name
  env.configuredDisks.foldl
    (fun reg osd =>
      match env.disk_info osd.2 with
      | none => reg
      | some devname =>
        if py_in devname disk_path then
          dictSet reg osd.1 (some { disk_by_id := osd.2, disk := disk_name, db := none })
        else reg)
    osd_data

/-- `_on_osd_standalone_attached` (lines 74–91): defer when the service is
not ready; otherwise clean stale records, compute the enrollment set, and —
inside the sunbeam guard — set a maintenance status, enroll the batch
(`_enroll_disks_in_batch`, whose `juju_storage_get` calls and
`enroll_disks_as_osds` invocation appear in the trace), save OSD data per
disk, and set the ready status. An enrollment `CalledProcessError`
propagates uncaught. -/
def on_osd_standalone_attached (env : AttachEnv) (osd_data : Registry) :
    HandlerResult :=
  if !env.ready then
    { osd_data := osd_data, calls := [.defer], outcome := .deferred }
  else
    let reg1 := clean_stale_osd_data (configured_osds env.configuredDisks) osd_data
    match enrollment_set reg1 env.storages with
    | .error _ =>
        { osd_data := reg1, calls := [.listDisks, .storageList], outcome := .keyError }
    | .ok enroll =>
      let getCalls := enroll.map (fun d => Call.storageGet d)
      let paths := enroll.map env.location
      match env.enroll paths with
      | .fail e =>
          { osd_data := reg1
            calls := [.listDisks, .storageList, .setStatus "Enrolling OSDs"] ++
              getCalls ++ [.enrollDisks paths]
            outcome := .raised e }
      | .ok =>
          let reg2 := enroll.foldl (fun r d => save_osd_data env r d) reg1
          let saveCalls := (enroll.map (fun d => [Call.storageGet d, Call.listDisks])).flatten
          { osd_data := reg2
            calls := [.listDisks, .storageList, .setStatus "Enrolling OSDs"] ++
              getCalls ++ [.enrollDisks paths] ++ saveCalls ++
              [.setStatus "charm is ready"]
            outcome := .ok }

/-! ### Retry model for the Juju hook tools

One attempt of the decorated body is an oracle `Nat → Except String (Option
String)` indexed by the attempt number: `.error` is a `CalledProcessError`
or timeout from `_run` (the exceptions tenacity retries on), `.ok none` is
the `ValueError` branch that returns `None` without retrying, and
`.ok (some out)` a parsed result. -/

/-- One attempt of a hook-tool invocation, indexed by attempt number. -/
abbrev AttemptOracle := Nat → Except String (Option String)

/-- The `wait_fixed(5)` delay of the tenacity decorator. -/
def retry_wait : Nat := 5

/-- The `stop_after_attempt(10)` bound of the tenacity decorator. -/
def retry_stop : Nat := 10

/-- Observable result of a (possibly retried) hook-tool call: final value or
surfaced error, number of attempts actually made, and total fixed delay
slept between attempts. -/
structure RetryResult where
  result : Except String (Option String)
  attempts : Nat
  waited : Nat

/-- Tenacity's `retry(wait=wait_fixed(w), stop=stop_after_attempt(n))` loop:
make an attempt; on success return; on exception either re-surface it (when
the attempt budget is spent) or sleep the fixed delay and try again. -/
def retry_loop (attempt : AttemptOracle) : Nat → Nat → Nat → RetryResult
  | made, waited, 0 => { result := .error "no attempts allowed", attempts := made, waited := waited }
  | made, waited, Nat.succ rem =>
    match attempt (made + 1) with
    | .ok v => { result := .ok v, attempts := made + 1, waited := waited }
    | .error e =>
      if rem = 0 then { result := .error e, attempts := made + 1, waited := waited }
      else retry_loop attempt (made + 1) (waited + retry_wait) rem

/-- `juju_storage_get` (lines 207–221): the body runs under
`@retry(wait=wait_fixed(5), stop=stop_after_attempt(10))`. -/
def juju_storage_get (attempt : AttemptOracle) : RetryResult :=
  retry_loop attempt 0 0 retry_stop

/-- `juju_storage_list` (lines 223–239): the body as written carries no
retry decorator, so it runs exactly once and surfaces any failure of that
single attempt. -/
def juju_storage_list (attempt : AttemptOracle) : RetryResult :=
  match attempt 1 with
  | .ok v => { result := .ok v, attempts := 1, waited := 0 }
  | .error e => { result := .error e, attempts := 1, waited := 0 }

/-! ### Concrete fixtures used by closed theorems and witnesses -/

/-- The record of the spec's handle-resolution example. -/
def rec5 : OsdRecord :=
  { disk_by_id := "/dev/disk/by-id/x", disk := "osd-standalone/2", db := none }

/-- Registry `{5: {disk_by_id: "/dev/disk/by-id/x", disk: "osd-standalone/2", db: None}}`. -/
def reg5 : Registry := [(5, some rec5)]

/-- A registry whose only record hangs off OSD number `0`. -/
def reg0 : Registry :=
  [(0, some { disk_by_id := "/dev/disk/by-id/y", disk := "osd-standalone/0", db := none })]

/-- Registry `{3: <record>, 7: <record>}` of the stale-cleanup example. -/
def reg37 : Registry :=
  [(3, some { disk_by_id := "/dev/disk/by-id/a", disk := "osd-standalone/0", db := none }),
   (7, some { disk_by_id := "/dev/disk/by-id/b", disk := "osd-standalone/1", db := none })]

/-- A registry holding a tombstone at key `3` and a live record at key `5`. -/
def regTomb : Registry := [(3, none), (5, some rec5)]

/-- Backend whose removals always succeed. -/
def backendOk : Backend := { remove := fun _ _ => .ok, configuredDisks := [] }

/-- Backend that rejects non-forced removals with the Ceph safety
diagnostic and accepts forced ones. -/
def backendSafety : Backend :=
  { remove := fun _ force =>
      if force then .ok else .fail "Error: need at least 3 OSDs for removal"
    configuredDisks := [] }

/-- Backend whose removals always fail with a non-safety diagnostic. -/
def backendBroken : Backend :=
  { remove := fun _ _ => .fail "Error: osd not found", configuredDisks := [] }

/-- An attach environment whose service is not ready. -/
def envNotReady : AttachEnv :=
  { ready := false
    storages := ["osd-standalone/0"]
    location := fun _ => "/dev/vdd"
    configuredDisks := [(1, "/dev/disk/by-id/z")]
    disk_info := fun _ => none
    enroll := fun _ => .ok }

/-- A hook-tool attempt oracle that fails on every attempt. -/
def failOracle : AttemptOracle := fun _ => .error "index not found"

/-- Backend whose removals fail with a non-safety diagnostic, while it still
reports one configured disk. -/
def backendBusy : Backend :=
  { remove := fun _ _ => .fail "Error: disk busy", configuredDisks := [(2, "/dev/disk/by-id/w")] }

/-! ## Theorems -/

/-- C8 (confirmed): with registry
`{5: {disk_by_id: "/dev/disk/by-id/x", disk: "osd-standalone/2", db: None}}`,
`_get_osd_id("osd-standalone/2")` returns `5` and
`_get_osd_id("osd-standalone/9")` returns `None`. -/
theorem get_osd_id_handle_resolution :
    get_osd_id reg5 "osd-standalone/2" = Except.ok (some 5) ∧
    get_osd_id reg5 "osd-standalone/9" = Except.ok none := by
  decide

/-- C1 (code bug): the guard at line 99 of `storage.py` is inverted
(`if osd_num is not None: return`). On a registry that resolves the detaching
handle `osd-standalone/2` to OSD `5`, the handler performs zero backend calls
and returns; on an empty registry, where `_get_osd_id` returns `None`, the
handler *does* invoke the removal command — with `osd_num = None` — exactly
the opposite of the claimed behaviour. -/
theorem detach_guard_inverted_eval :
    on_storage_detaching backendOk reg5 "osd-standalone/2" =
      { osd_data := reg5, calls := [], outcome := Outcome.ok } ∧
    on_storage_detaching backendOk [] "osd-standalone/2" =
      { osd_data := []
        calls := [Call.removeDisk none false, Call.listDisks]
        outcome := Outcome.ok } := by
  decide

/-- C2 (code bug): with a backend that rejects the non-forced removal of any
OSD with the `"need at least 3 OSDs"` safety text, a detaching handle that
resolves to OSD `5` still triggers no backend call at all (no non-forced
attempt, no forced attempt, no blocking condition), because line 99 returns
early exactly when an OSD is associated. The escalation code is reachable
only on the `osd_num = None` path, where it forces removal of `None` and
blocks naming `osd.None`. -/
theorem detach_no_safety_escalation_eval :
    on_storage_detaching backendSafety reg5 "osd-standalone/2" =
      { osd_data := reg5, calls := [], outcome := Outcome.ok } ∧
    on_storage_detaching backendSafety [] "osd-standalone/2" =
      { osd_data := []
        calls := [Call.removeDisk none false, Call.removeDisk none true, Call.listDisks]
        outcome := Outcome.blocked
          "Storage osd-standalone/2 detached, provide replacement for osd.None." } := by
  decide

/-- C3 counterexample: cleaning registry `{3: <record>, 7: <record>}` against
backend listing `[{osd: 3}]` keeps *both* keys — key `7` survives with the
`None` tombstone as its value — so the registry does not end up with exactly
the listed keys. -/
theorem clean_stale_keeps_key_counterexample :
    (clean_stale_osd_data [3] reg37).map Prod.fst = [3, 7] ∧
    ¬ (clean_stale_osd_data [3] reg37).map Prod.fst = [3] ∧
    (7, (none : Option OsdRecord)) ∈ clean_stale_osd_data [3] reg37 := by
  decide

/-- C4 counterexample: a handle backed by OSD number `0` is *not* excluded
from the enrollment set on redelivery — `_get_osd_id` resolves it to `0`,
but line 85's truthiness test `not self._get_osd_id(...)` treats `0` as
falsy, so the handle is enrolled again. -/
theorem attach_idempotence_zero_id_counterexample :
    get_osd_id reg0 "osd-standalone/0" = Except.ok (some 0) ∧
    enrollment_set reg0 ["osd-standalone/0"] = Except.ok ["osd-standalone/0"] := by
  decide

/-- C5 counterexample: a removal attempt failing with a non-safety
diagnostic is *not* propagated as a blocking condition — the handler ends
with a plain `ok` outcome (the bare `if` inside the `except` block swallows
the exception), having made the single non-forced removal call. -/
theorem detach_nonsafety_swallowed_counterexample :
    on_storage_detaching backendBroken [] "osd-standalone/7" =
      { osd_data := [], calls := [Call.removeDisk none false], outcome := Outcome.ok } ∧
    is_safety_failure "Error: osd not found" = false := by
  decide

/-- C6 counterexample: `juju_storage_list` carries no retry decorator, so an
always-failing listing surfaces its failure after a single attempt, not
after `retry_stop = 10` attempts. -/
theorem storage_list_no_retry_counterexample :
    (juju_storage_list failOracle).attempts = 1 ∧
    (juju_storage_list failOracle).attempts ≠ retry_stop ∧
    (juju_storage_list failOracle).result = Except.error "index not found" := by
  decide

/-- C7 counterexample: a failed *non-forced* removal re-raises without
running `_clean_stale_osd_data` — the trace holds no disk listing and the
registry keeps its (now stale) record for OSD `5`, even though cleanup would
have tombstoned it. -/
theorem remove_osd_skips_cleanup_counterexample :
    remove_osd backendBroken reg5 (some 5) false =
      { osd_data := reg5
        calls := [Call.removeDisk (some 5) false]
        error := some "Error: osd not found" } ∧
    Call.listDisks ∉ (remove_osd backendBroken reg5 (some 5) false).calls ∧
    clean_stale_osd_data (configured_osds backendBroken.configuredDisks) reg5 = [(5, none)] := by
  decide

/-- C9 (confirmed): when the service is not ready for service, the attach
handler defers the event and stops: the stored state is returned unchanged
and the only observable action is `event.defer()` — no backend call, no
metadata query, no registry mutation. -/
theorem attach_defers_when_not_ready (env : AttachEnv) (osd_data : Registry)
    (h : env.ready = false) :
    on_osd_standalone_attached env osd_data =
      { osd_data := osd_data, calls := [Call.defer], outcome := Outcome.deferred } := by
  simp [on_osd_standalone_attached, h]

/-- Witness for `attach_defers_when_not_ready` at a concrete not-ready
environment and non-empty registry. -/
theorem attach_defers_when_not_ready_witness :
    on_osd_standalone_attached envNotReady reg5 =
      { osd_data := reg5, calls := [Call.defer], outcome := Outcome.deferred } :=
  attach_defers_when_not_ready envNotReady reg5 rfl

/-- C5 (amended): whenever the detach handler reaches a removal attempt
(which, given line 99, happens exactly when `_get_osd_id` resolved no OSD)
and that non-forced attempt fails with output *not* containing the safety
substring, the exception is caught and swallowed: the handler ends with a
plain `ok` outcome (no blocking condition), performs no forced removal, and
leaves the registry unmodified. -/
theorem detach_nonsafety_failure_swallowed
    (b : Backend) (reg : Registry) (full_id : String) (stderr : String)
    (h1 : get_osd_id reg full_id = Except.ok none)
    (h2 : b.remove none false = CmdResult.fail stderr)
    (h3 : is_safety_failure stderr = false) :
    on_storage_detaching b reg full_id =
      { osd_data := reg, calls := [Call.removeDisk none false], outcome := Outcome.ok } := by
  simp [on_storage_detaching, remove_osd, h1, h2, h3]

/-- Witness for `detach_nonsafety_failure_swallowed`: a backend failing with
`"Error: disk busy"` on an empty registry. -/
theorem detach_nonsafety_failure_swallowed_witness :
    on_storage_detaching backendBusy [] "osd-standalone/3" =
      { osd_data := [], calls := [Call.removeDisk none false], outcome := Outcome.ok } :=
  detach_nonsafety_failure_swallowed backendBusy [] "osd-standalone/3"
    "Error: disk busy" (by decide) rfl (by decide)

/-- C7 (amended): `remove_osd` runs the stale cleanup before returning when
the removal command succeeds, and before re-raising when it fails with
`force = true`; in both cases the final state is the cleaned registry and
the trace ends with the cleanup's disk listing. When the command fails with
`force = false`, the error propagates *without* cleanup: the result is
exactly the untouched registry with the single removal call in the trace —
no disk listing, no registry change. -/
theorem remove_osd_cleanup_cases
    (b : Backend) (reg : Registry) (osd : Option Nat) (force : Bool) :
    (b.remove osd force = CmdResult.ok →
      remove_osd b reg osd force =
        { osd_data := clean_stale_osd_data (configured_osds b.configuredDisks) reg
          calls := [Call.removeDisk osd force, Call.listDisks]
          error := none }) ∧
    (∀ e, b.remove osd force = CmdResult.fail e → force = true →
      remove_osd b reg osd force =
        { osd_data := clean_stale_osd_data (configured_osds b.configuredDisks) reg
          calls := [Call.removeDisk osd force, Call.listDisks]
          error := some e }) ∧
    (∀ e, b.remove osd force = CmdResult.fail e → force = false →
      remove_osd b reg osd force =
        { osd_data := reg
          calls := [Call.removeDisk osd force]
          error := some e }) := by
  refine ⟨?_, ?_, ?_⟩
  · intro h
    simp [remove_osd, h]
  · intro e he hf
    subst hf
    simp [remove_osd, he]
  · intro e he hf
    subst hf
    simp [remove_osd, he]

/-! ### Retry bound lemmas (claim C6) -/

/-- When every attempt fails, the tenacity loop makes exactly the remaining
number of attempts, sleeps the fixed delay between consecutive attempts, and
surfaces an error. -/
theorem retry_loop_all_fail (attempt : AttemptOracle)
    (h : ∀ n, ∃ e, attempt n = Except.error e) :
    ∀ (rem made waited : Nat), rem ≠ 0 →
      (retry_loop attempt made waited rem).attempts = made + rem ∧
      (retry_loop attempt made waited rem).waited = waited + (rem - 1) * retry_wait ∧
      ∃ e, (retry_loop attempt made waited rem).result = Except.error e := by
  intro rem
  induction rem with
  | zero => intro _ _ h0; exact absurd rfl h0
  | succ r ih =>
    intro made waited _
    obtain ⟨e, he⟩ := h (made + 1)
    by_cases hr : r = 0
    · subst hr
      simp [retry_loop, he]
    · obtain ⟨h1, h2, h3⟩ := ih (made + 1) (waited + retry_wait) hr
      simp only [retry_loop, he, if_neg hr]
      refine ⟨by rw [h1]; omega, ?_, h3⟩
      rw [h2]
      have hw : retry_wait = 5 := rfl
      rw [hw]
      omega

/-- C6 (amended): an always-failing metadata query makes exactly
`retry_stop = 10` attempts through `juju_storage_get` (with the fixed
`retry_wait = 5` delay slept between consecutive attempts, 45 units in
total) and then surfaces the failure; `juju_storage_list`, which has no
retry decorator, surfaces the same failure after exactly one attempt. -/
theorem storage_get_retried_storage_list_not (attempt : AttemptOracle)
    (h : ∀ n, ∃ e, attempt n = Except.error e) :
    (juju_storage_get attempt).attempts = retry_stop ∧
    (juju_storage_get attempt).waited = (retry_stop - 1) * retry_wait ∧
    (∃ e, (juju_storage_get attempt).result = Except.error e) ∧
    (juju_storage_list attempt).attempts = 1 ∧
    ∃ e, (juju_storage_list attempt).result = Except.error e := by
  obtain ⟨a1, a2, a3⟩ := retry_loop_all_fail attempt h retry_stop 0 0 (by decide)
  obtain ⟨e, he⟩ := h 1
  refine ⟨?_, ?_, ?_, ?_, ?_⟩
  · simpa [juju_storage_get] using a1
  · simpa [juju_storage_get] using a2
  · simpa [juju_storage_get] using a3
  · simp [juju_storage_list, he]
  · exact ⟨e, by simp [juju_storage_list, he]⟩

/-- Witness for `storage_get_retried_storage_list_not` at the concrete
always-failing oracle. -/
theorem storage_get_retried_storage_list_not_witness :
    (juju_storage_get failOracle).attempts = retry_stop ∧
    (juju_storage_get failOracle).waited = (retry_stop - 1) * retry_wait ∧
    (∃ e, (juju_storage_get failOracle).result = Except.error e) ∧
    (juju_storage_list failOracle).attempts = 1 ∧
    (∃ e, (juju_storage_list failOracle).result = Except.error e) :=
  storage_get_retried_storage_list_not failOracle
    (fun _ => ⟨"index not found", rfl⟩)

/-! ### Tombstone blindness of `_get_osd_id` (claim C10) -/

/-- The `_get_osd_id` scan gives the same answer on the registry with all
`None`-valued (tombstoned) entries removed. -/
theorem get_osd_id_loop_filter (key name : String) :
    ∀ reg : Registry,
      get_osd_id_loop key name reg =
        get_osd_id_loop key name (reg.filter (fun p => p.2.isSome)) := by
  intro reg
  induction reg with
  | nil => rfl
  | cons p rest ih =>
    obtain ⟨k, v⟩ := p
    cases v with
    | none => simpa [get_osd_id_loop, List.filter_cons] using ih
    | some r =>
      simp only [List.filter_cons, Option.isSome_some, if_pos, get_osd_id_loop]
      cases record_field r key with
      | none => rfl
      | some value =>
        by_cases hv : value = some name
        · simp [hv]
        · simp [hv, ih]

/-- When the `_get_osd_id` scan returns a key, that key holds a live
(non-tombstoned) record in the registry. -/
theorem get_osd_id_loop_mem (key name : String) :
    ∀ (reg : Registry) (k : Nat),
      get_osd_id_loop key name reg = Except.ok (some k) →
        ∃ r : OsdRecord, (k, some r) ∈ reg := by
  intro reg
  induction reg with
  | nil => intro k h; simp [get_osd_id_loop] at h
  | cons p rest ih =>
    intro k h
    obtain ⟨k', v⟩ := p
    cases v with
    | none =>
      obtain ⟨r, hr⟩ := ih k (by simpa [get_osd_id_loop] using h)
      exact ⟨r, List.mem_cons_of_mem _ hr⟩
    | some r =>
      rw [get_osd_id_loop] at h
      cases hf : record_field r key with
      | none => rw [hf] at h; cases h
      | some value =>
        rw [hf] at h
        dsimp only at h
        by_cases hv : value = some name
        · rw [if_pos hv] at h
          injection h with h'
          injection h' with h''
          subst h''
          exact ⟨r, List.mem_cons_self _ _⟩
        · rw [if_neg hv] at h
          obtain ⟨r', hr'⟩ := ih k h
          exact ⟨r', List.mem_cons_of_mem _ hr'⟩

/-- C10 (confirmed): `_get_osd_id` never resolves a handle to the key of a
tombstoned entry — its answer is unchanged when all `None`-valued entries
are dropped from the registry, and whenever it returns a key, that key holds
a live record. -/
theorem get_osd_id_ignores_tombstones (reg : Registry) (name : String) :
    get_osd_id reg name =
      get_osd_id (reg.filter (fun p => p.2.isSome)) name ∧
    ∀ k, get_osd_id reg name = Except.ok (some k) →
      ∃ r : OsdRecord, (k, some r) ∈ reg := by
  constructor
  · simp only [get_osd_id]
    exact get_osd_id_loop_filter _ _ reg
  · intro k h
    simp only [get_osd_id] at h
    exact get_osd_id_loop_mem _ _ reg k h

/-- Witness for `get_osd_id_ignores_tombstones` on a registry holding a
tombstone at key `3` and a live record at key `5`. -/
theorem get_osd_id_ignores_tombstones_witness :
    get_osd_id regTomb "osd-standalone/2" =
      get_osd_id (regTomb.filter (fun p => p.2.isSome)) "osd-standalone/2" ∧
    ∃ r : OsdRecord, (5, some r) ∈ regTomb :=
  ⟨(get_osd_id_ignores_tombstones regTomb "osd-standalone/2").1,
   (get_osd_id_ignores_tombstones regTomb "osd-standalone/2").2 5 (by decide)⟩

/-! ### Enrollment-set exclusion (claim C4) -/

/-- A storage name resolving to a *truthy* OSD number is never collected by
the enrollment loop. -/
theorem enroll_loop_not_mem (reg : Registry) (s : String) (n : Nat)
    (h1 : get_osd_id reg s = Except.ok (some n)) (h2 : n ≠ 0) :
    ∀ (ds l : List String), enroll_loop reg ds = Except.ok l → s ∉ l := by
  intro ds
  induction ds with
  | nil =>
    intro l h
    simp only [enroll_loop] at h
    injection h with h'
    subst h'
    simp
  | cons d rest ih =>
    intro l h
    rw [enroll_loop] at h
    cases hg : get_osd_id reg d with
    | error e => rw [hg] at h; cases h
    | ok r =>
      rw [hg] at h
      cases hl : enroll_loop reg rest with
      | error e => rw [hl] at h; cases h
      | ok tail =>
        rw [hl] at h
        injection h with h'
        subst h'
        intro hmem
        by_cases hds : d = s
        · subst hds
          rw [h1] at hg
          injection hg with hg'
          subst hg'
          simp [py_falsy_opt_nat, h2] at hmem
          exact ih tail hl hmem
        · have : s ∈ tail := by
            rcases ite_eq_or_eq (py_falsy_opt_nat r) (d :: tail) tail with he | he <;>
              rw [he] at hmem
            · rcases List.mem_cons.1 hmem with h | h
              · exact absurd h.symm hds
              · exact h
            · exact hmem
          exact ih tail hl this

/-- C4 (amended): the attach handler's enrollment set excludes every attached
handle that already resolves to a *nonzero* OSD number, so redelivery of an
attach event re-enrolls none of those disks. (A handle backed by OSD number
`0` is the exception: line 85 tests `not self._get_osd_id(...)` and the
integer `0` is falsy in Python, so that handle is enrolled again.) -/
theorem enrollment_excludes_nonzero_osd_handles
    (reg : Registry) (listed : List String) (s : String) (n : Nat)
    (h1 : get_osd_id reg s = Except.ok (some n)) (h2 : n ≠ 0)
    (l : List String) (h3 : enrollment_set reg listed = Except.ok l) :
    s ∉ l := by
  rw [enrollment_set] at h3
  exact enroll_loop_not_mem reg s n h1 h2 _ l h3

/-- Witness for `enrollment_excludes_nonzero_osd_handles`: the handle
`osd-standalone/2` resolves to OSD `5`, and redelivering its attach event
yields the empty enrollment set. -/
theorem enrollment_excludes_nonzero_osd_handles_witness :
    enrollment_set reg5 ["osd-standalone/2"] = Except.ok [] ∧
    "osd-standalone/2" ∉ ([] : List String) :=
  ⟨by decide,
   enrollment_excludes_nonzero_osd_handles reg5 ["osd-standalone/2"]
     "osd-standalone/2" 5 (by decide) (by decide) [] (by decide)⟩

/-! ### In-place tombstoning of stale registry entries (claim C3) -/

/-- Python dict assignment for a key already present replaces that key's
value pointwise. -/
theorem dictSet_present (reg : Registry) (k : Nat) (v : Option OsdRecord)
    (h : ∃ p ∈ reg, p.1 = k) :
    dictSet reg k v = reg.map (fun p => if p.1 == k then (k, v) else p) := by
  obtain ⟨p, hp, hpk⟩ := h
  have hany : reg.any (fun q => q.1 == k) = true :=
    List.any_eq_true.2 ⟨p, hp, by simp [hpk]⟩
  simp [dictSet, hany]

/-- The cleanup loop, folded over any snapshot `ks` of keys all present in
the accumulator, tombstones exactly the entries whose key is in `ks` but not
in the backend listing, leaving every other entry untouched. -/
theorem clean_fold_eq_map (osds : List Nat) :
    ∀ (ks : List Nat) (acc : Registry),
      (∀ k ∈ ks, ∃ p ∈ acc, p.1 = k) →
      List.foldl
        (fun reg osd_num =>
          if osds.contains osd_num then reg else dictSet reg osd_num none)
        acc ks
      = acc.map
          (fun p => if ks.contains p.1 && !osds.contains p.1 then (p.1, none) else p) := by
  intro ks
  induction ks with
  | nil =>
    intro acc _
    simp
  | cons k ks ih =>
    intro acc hacc
    rw [List.foldl_cons]
    by_cases hk : k ∈ osds
    · rw [if_pos (by simpa using hk),
        ih acc (fun k' h' => hacc k' (List.mem_cons_of_mem _ h'))]
      refine List.map_congr_left ?_
      intro p hp
      by_cases hpk : p.1 = k
      · simp [hpk, hk]
      · simp [hpk]
    · rw [if_neg (by simpa using hk)]
      have hmem : ∃ p ∈ acc, p.1 = k := hacc k (List.mem_cons_self _ _)
      rw [dictSet_present acc k none hmem]
      have hacc' : ∀ k' ∈ ks,
          ∃ p ∈ acc.map (fun p => if p.1 == k then (k, (none : Option OsdRecord)) else p),
            p.1 = k' := by
        intro k' h'
        obtain ⟨p, hp, he⟩ := hacc k' (List.mem_cons_of_mem _ h')
        refine ⟨if p.1 == k then (k, (none : Option OsdRecord)) else p,
          List.mem_map_of_mem _ hp, ?_⟩
        by_cases hpk : p.1 = k
        · rw [if_pos (by simp [hpk])]
          show k = k'
          rw [← hpk]
          exact he
        · rw [if_neg (by simp [hpk])]
          exact he
      rw [ih _ hacc', List.map_map]
      refine List.map_congr_left ?_
      intro p hp
      simp only [Function.comp_apply]
      by_cases hpk : p.1 = k
      · have hh : (if (p.1 == k) = true then (k, (none : Option OsdRecord)) else p)
            = (k, none) := if_pos (by simp [hpk])
        rw [hh]
        by_cases hc : k ∈ ks <;> simp [hpk, hk, hc]
      · have hh : (if (p.1 == k) = true then (k, (none : Option OsdRecord)) else p)
            = p := if_neg (by simp [hpk])
        rw [hh]
        simp [hpk]

/-- C3 (amended): `_clean_stale_osd_data` tombstones in place but never
drops a key — afterwards the registry holds exactly its original keys, where
every key absent from the backend listing now maps to the `None` tombstone
and every key present in the listing keeps its record. In the spec's
example, `{3: <record>, 7: <record>}` against listing `[{osd: 3}]` becomes
`{3: <record>, 7: None}`, not `{3: <record>}`. -/
theorem clean_stale_tombstones_in_place (osds : List Nat) (reg : Registry) :
    clean_stale_osd_data osds reg =
      reg.map (fun p => if osds.contains p.1 then p else (p.1, none)) := by
  rw [clean_stale_osd_data,
    clean_fold_eq_map osds (reg.map Prod.fst) reg
      (fun k hkm => by
        obtain ⟨p, hp, he⟩ := List.mem_map.1 hkm
        exact ⟨p, hp, he⟩)]
  refine List.map_congr_left ?_
  intro p hp
  have hc : (reg.map Prod.fst).contains p.1 = true := by
    have hm : p.1 ∈ reg.map Prod.fst := List.mem_map_of_mem _ hp
    simpa using hm
  rw [hc]
  cases ho : osds.contains p.1 <;> simp [ho]

/-- Witness for `clean_stale_tombstones_in_place` at the spec's example
registry and listing. -/
theorem clean_stale_tombstones_in_place_witness :
    clean_stale_osd_data [3] reg37 =
      reg37.map (fun p => if List.contains [3] p.1 then p else (p.1, none)) :=
  clean_stale_tombstones_in_place [3] reg37

/-- Witness for `remove_osd_cleanup_cases`, exercising all three cases at
concrete inputs: a successful non-forced removal, a failed forced removal,
and a failed non-forced removal of OSD `3`. -/
theorem remove_osd_cleanup_cases_witness :
    remove_osd backendOk reg37 (some 3) false =
      { osd_data := clean_stale_osd_data (configured_osds backendOk.configuredDisks) reg37
        calls := [Call.removeDisk (some 3) false, Call.listDisks]
        error := none } ∧
    remove_osd backendBroken reg37 (some 3) true =
      { osd_data := clean_stale_osd_data (configured_osds backendBroken.configuredDisks) reg37
        calls := [Call.removeDisk (some 3) true, Call.listDisks]
        error := some "Error: osd not found" } ∧
    remove_osd backendBroken reg37 (some 3) false =
      { osd_data := reg37
        calls := [Call.removeDisk (some 3) false]
        error := some "Error: osd not found" } :=
  ⟨(remove_osd_cleanup_cases backendOk reg37 (some 3) false).1 rfl,
   (remove_osd_cleanup_cases backendBroken reg37 (some 3) true).2.1
     "Error: osd not found" rfl rfl,
   (remove_osd_cleanup_cases backendBroken reg37 (some 3) false).2.2
     "Error: osd not found" rfl rfl⟩

end Microceph
